import Mathlib

/-!
Verification of `src/costing/azurerm_backend_costs.py`: a pure, single-pass
cost projection for Terraform AzureRM state-storage backends.  Python floats
are embedded as exact rationals (`ℚ`), Python ints as `Int`, and the Python
dict of tier fractions as an association list with `lookup`/`getD` mirroring
`dict.get(key, default)`.  Each definition below mirrors one function or
code block of the source file.
-/

namespace AzurermBackendCosts

/-- The `BackupMode` literal type: `"none" | "blobs_operational" | "blobs_vaulted"`. -/
inductive BackupMode where
  | none
  | blobs_operational
  | blobs_vaulted
  deriving DecidableEq, Repr

/-- Python `int(x)` on a float: truncation toward zero, embedded on `ℚ`. -/
def pyInt (x : ℚ) : Int :=
  if 0 ≤ x then ⌊x⌋ else ⌈x⌉

/-- Python `round(x, 6)`: round to 6 decimal places, ties to even. -/
def pyRound6 (x : ℚ) : ℚ :=
  let scaled := x * 1000000
  let f := ⌊scaled⌋
  let frac := scaled - (f : ℚ)
  let n : Int :=
    if frac < 1/2 then f
    else if 1/2 < frac then f + 1
    else if f % 2 = 0 then f else f + 1
  (n : ℚ) / 1000000

/-- The `Inputs` dataclass.  `blob_vaulted_tiers` is `None`-able before
`__post_init__` runs, hence `Option`. -/
structure Inputs where
  num_clients : Int
  envs_per_client : ℚ
  avg_state_size_mb : ℚ
  deployments_per_env_per_year : Int
  pr_runs_per_client_per_year : Int
  num_regions : Int
  storage_accounts_per_region : Int
  log_bytes_per_txn : ℚ := 1024
  backup_mode : BackupMode := BackupMode.blobs_operational
  blob_vaulted_pi_price_per_month : ℚ := 0
  blob_vaulted_tiers : Option (List (String × ℚ)) := Option.none
  blob_vaulted_write_per_10k_price : ℚ := 0
  blob_vaulted_write_ops_per_month_per_account : ℚ := 0
  backup_vault_storage_gb_per_account_month : ℚ := 0
  backup_vault_storage_price_per_gb_month : ℚ := 0
  growth_rate_clients : ℚ := 0
  years : Int := 1
  hours_per_month : ℚ := 730

/-- The default tier-fraction table assigned in `Inputs.__post_init__`. -/
def defaultTiers : List (String × ℚ) :=
  [("<10GB", 0.10), ("10-100GB", 0.30), ("100GB-1TB", 0.60), (">=1TB", 1.00)]

/-- `Inputs.__post_init__`: if the tier table is `None`, install the default
table; it performs no other action (in particular, no validation). -/
def postInit (i : Inputs) : Inputs :=
  if i.blob_vaulted_tiers = Option.none then
    { i with blob_vaulted_tiers := some defaultTiers }
  else i

/-- The `Rates` dataclass. -/
structure Rates where
  storage_gb_month_price : ℚ
  read_txn_per_10k_price : ℚ
  write_txn_per_10k_price : ℚ
  private_endpoint_hour_price : ℚ
  private_link_data_price_per_gb : ℚ
  log_ingestion_price_per_gb : ℚ

/-- `_clients_in_year`: `math.ceil(base_clients * ((1 + growth_rate) ** year_index))`. -/
def clients_in_year (base_clients : Int) (growth_rate : ℚ) (year_index : Nat) : Int :=
  Int.ceil ((base_clients : ℚ) * (1 + growth_rate) ^ year_index)

/-- `_blobs_vaulted_pi_monthly_fee`: tiered protected-instance monthly fee.
`tiers.get(k, d)` becomes `(tiers.lookup k).getD d`. -/
def blobs_vaulted_pi_monthly_fee (per_account_size_gb base_monthly : ℚ)
    (tiers : List (String × ℚ)) : ℚ :=
  if per_account_size_gb < 10 then
    base_monthly * ((tiers.lookup "<10GB").getD 0)
  else if per_account_size_gb < 100 then
    base_monthly * ((tiers.lookup "10-100GB").getD 0)
  else if per_account_size_gb < 1024 then
    base_monthly * ((tiers.lookup "100GB-1TB").getD 0)
  else
    base_monthly * ((tiers.lookup ">=1TB").getD 1)

/-- The `transactions` sub-dict of a year's breakdown. -/
structure Transactions where
  reads : Int
  writes : Int
  total : Int
  read_cost : ℚ
  write_cost : ℚ
  total_txn_cost : ℚ
  deriving Repr

/-- The `private_link` sub-dict of a year's breakdown. -/
structure PrivateLink where
  endpoint_hours : ℚ
  data_processed_gb : ℚ
  endpoint_hour_cost : ℚ
  data_cost : ℚ
  total_pl_cost : ℚ
  deriving Repr

/-- The `logging` sub-dict of a year's breakdown. -/
structure Logging where
  log_bytes_per_txn : ℚ
  gb_per_account_per_month : ℚ
  ingestion_gb_year : ℚ
  ingestion_cost_year : ℚ
  deriving Repr

/-- The `backup` sub-dict of a year's breakdown. -/
structure Backup where
  mode : BackupMode
  per_account_size_gb : ℚ
  pi_monthly_fee_per_account : ℚ
  instance_cost_year : ℚ
  vault_storage_cost_year : ℚ
  backup_write_ops_year : ℚ
  backup_write_ops_cost_year : ℚ
  deriving Repr

/-- One `year_breakdown` dict appended to `breakdown_by_year`. -/
structure YearBreakdown where
  year_index : Int
  clients : Int
  environments_global : ℚ
  storage_accounts : Int
  avg_state_size_gb : ℚ
  storage_gb : ℚ
  transactions : Transactions
  private_link : PrivateLink
  logging : Logging
  backup : Backup
  storage_cost_year : ℚ
  year_total_cost : ℚ
  deriving Repr

/-- The result dict: `{"by_year": ..., "grand_total": ...}`. -/
structure Result where
  by_year : List YearBreakdown
  grand_total : ℚ
  deriving Repr

/-- `reads_per_env = (3 * inputs.deployments_per_env_per_year) + inputs.pr_runs_per_client_per_year`. -/
def reads_per_env (i : Inputs) : Int :=
  3 * i.deployments_per_env_per_year + i.pr_runs_per_client_per_year

/-- `writes_per_env = (1 * inputs.deployments_per_env_per_year)`. -/
def writes_per_env (i : Inputs) : Int :=
  1 * i.deployments_per_env_per_year

/-- The backup block of `estimate_backend_costs` (source lines 144-183): the
dict initialised to zeros, then filled according to `backup_mode` when
`total_accounts > 0`. -/
def backupCalc (i : Inputs) (total_accounts : Int) (total_state_gb : ℚ) : Backup :=
  let base : Backup :=
    { mode := i.backup_mode
      per_account_size_gb := 0
      pi_monthly_fee_per_account := 0
      instance_cost_year := 0
      vault_storage_cost_year := 0
      backup_write_ops_year := 0
      backup_write_ops_cost_year := 0 }
  if i.backup_mode ≠ BackupMode.none ∧ 0 < total_accounts then
    let per_account_size_gb :=
      if 0 < total_accounts then total_state_gb / (total_accounts : ℚ) else 0
    if i.backup_mode = BackupMode.blobs_vaulted then
      let pi_monthly := blobs_vaulted_pi_monthly_fee per_account_size_gb
        i.blob_vaulted_pi_price_per_month (i.blob_vaulted_tiers.getD [])
      let yearly_backup_writes :=
        i.blob_vaulted_write_ops_per_month_per_account * (total_accounts : ℚ) * 12
      { base with
        per_account_size_gb := per_account_size_gb
        pi_monthly_fee_per_account := pi_monthly
        instance_cost_year := pi_monthly * (total_accounts : ℚ) * 12
        vault_storage_cost_year :=
          i.backup_vault_storage_gb_per_account_month
            * i.backup_vault_storage_price_per_gb_month
            * (total_accounts : ℚ) * 12
        backup_write_ops_year := yearly_backup_writes
        backup_write_ops_cost_year :=
          (yearly_backup_writes / 10000) * i.blob_vaulted_write_per_10k_price }
    else
      { base with per_account_size_gb := per_account_size_gb }
  else base

/-- One iteration of the `for y in range(inputs.years)` loop of
`estimate_backend_costs`: all per-year quantities and the assembled record. -/
def yearBreakdown (i : Inputs) (r : Rates) (y : Nat) : YearBreakdown :=
  let total_accounts : Int := i.num_regions * i.storage_accounts_per_region
  let avg_state_size_gb : ℚ := i.avg_state_size_mb / 1024
  let clients_y := clients_in_year i.num_clients i.growth_rate_clients y
  let total_envs : ℚ := (clients_y : ℚ) * i.envs_per_client
  let total_state_gb := total_envs * avg_state_size_gb
  let storage_cost_year := total_state_gb * r.storage_gb_month_price * 12
  let total_reads : ℚ := (reads_per_env i : ℚ) * total_envs
  let total_writes : ℚ := (writes_per_env i : ℚ) * total_envs
  let total_txns := total_reads + total_writes
  let read_cost_year := (total_reads / 10000) * r.read_txn_per_10k_price
  let write_cost_year := (total_writes / 10000) * r.write_txn_per_10k_price
  let txn_cost_year := read_cost_year + write_cost_year
  let pe_hours_year : ℚ := (total_accounts : ℚ) * i.hours_per_month * 12
  let pe_hour_cost_year := pe_hours_year * r.private_endpoint_hour_price
  let data_processed_gb_year := total_txns * avg_state_size_gb
  let pe_data_cost_year := data_processed_gb_year * r.private_link_data_price_per_gb
  let private_link_cost_year := pe_hour_cost_year + pe_data_cost_year
  let log_gb_per_account_per_month : ℚ :=
    if 0 < total_accounts then
      ((total_txns / 12) / (total_accounts : ℚ)) * i.log_bytes_per_txn / (1024 ^ 3)
    else 0
  let log_ingestion_gb_year : ℚ :=
    if 0 < total_accounts then
      (total_accounts : ℚ) * log_gb_per_account_per_month * 12
    else 0
  let log_ingestion_cost_year := log_ingestion_gb_year * r.log_ingestion_price_per_gb
  let backup := backupCalc i total_accounts total_state_gb
  let year_total_base :=
    storage_cost_year + txn_cost_year + private_link_cost_year + log_ingestion_cost_year
  let year_total :=
    if i.backup_mode = BackupMode.blobs_vaulted then
      year_total_base + backup.instance_cost_year + backup.vault_storage_cost_year
        + backup.backup_write_ops_cost_year
    else year_total_base
  { year_index := (y : Int) + 1
    clients := clients_y
    environments_global := total_envs
    storage_accounts := total_accounts
    avg_state_size_gb := pyRound6 avg_state_size_gb
    storage_gb := pyRound6 total_state_gb
    transactions :=
      { reads := pyInt total_reads
        writes := pyInt total_writes
        total := pyInt total_txns
        read_cost := read_cost_year
        write_cost := write_cost_year
        total_txn_cost := txn_cost_year }
    private_link :=
      { endpoint_hours := pe_hours_year
        data_processed_gb := data_processed_gb_year
        endpoint_hour_cost := pe_hour_cost_year
        data_cost := pe_data_cost_year
        total_pl_cost := private_link_cost_year }
    logging :=
      { log_bytes_per_txn := i.log_bytes_per_txn
        gb_per_account_per_month := log_gb_per_account_per_month
        ingestion_gb_year := log_ingestion_gb_year
        ingestion_cost_year := log_ingestion_cost_year }
    backup := backup
    storage_cost_year := storage_cost_year
    year_total_cost := year_total }

/-- `estimate_backend_costs`: the loop over `range(inputs.years)` followed by
`grand_total = sum(y["year_total_cost"] for y in breakdown_by_year)`. -/
def estimate_backend_costs (i : Inputs) (r : Rates) : Result :=
  let by_year := (List.range i.years.toNat).map (yearBreakdown i r)
  { by_year := by_year
    grand_total := (by_year.map (fun b => b.year_total_cost)).sum }

/-- The `Rates` value constructed in `src/costing/runner.py`. -/
def runnerRates : Rates :=
  { storage_gb_month_price := 0.018
    read_txn_per_10k_price := 0.004
    write_txn_per_10k_price := 0.05
    private_endpoint_hour_price := 0.01
    private_link_data_price_per_gb := 0.01
    log_ingestion_price_per_gb := 2.76 }

/-- The `Inputs` value constructed in `src/costing/runner.py` (after
`__post_init__` has installed the default tier table). -/
def runnerInputs : Inputs :=
  postInit
    { num_clients := 100
      envs_per_client := 3.5
      avg_state_size_mb := 1
      deployments_per_env_per_year := 200
      pr_runs_per_client_per_year := 16
      num_regions := 3
      storage_accounts_per_region := 2
      log_bytes_per_txn := 1024
      growth_rate_clients := 0.25
      years := 5
      backup_mode := BackupMode.blobs_vaulted
      blob_vaulted_pi_price_per_month := 8.0
      blob_vaulted_write_per_10k_price := 0.057
      blob_vaulted_write_ops_per_month_per_account := 5000
      backup_vault_storage_gb_per_account_month := 10.0
      backup_vault_storage_price_per_gb_month := 0.023 }

/-- A degenerate configuration with zero regions (so zero storage
accounts), used to exercise the zero-account guard. -/
def zeroAccInputs : Inputs :=
  { num_clients := 10
    envs_per_client := 2
    avg_state_size_mb := 512
    deployments_per_env_per_year := 50
    pr_runs_per_client_per_year := 5
    num_regions := 0
    storage_accounts_per_region := 0
    backup_mode := BackupMode.blobs_vaulted
    blob_vaulted_tiers := some defaultTiers }

/-- An invalid input per the spec's taxonomy: negative client count.  The
code accepts it. -/
def negativeClientsInputs : Inputs :=
  { num_clients := -100
    envs_per_client := 1
    avg_state_size_mb := 1024
    deployments_per_env_per_year := 0
    pr_runs_per_client_per_year := 0
    num_regions := 0
    storage_accounts_per_region := 0
    backup_mode := BackupMode.none
    years := 1 }

/-- A rate table with a unit storage price and all other prices zero. -/
def storageOnlyRates : Rates :=
  { storage_gb_month_price := 1
    read_txn_per_10k_price := 0
    write_txn_per_10k_price := 0
    private_endpoint_hour_price := 0
    private_link_data_price_per_gb := 0
    log_ingestion_price_per_gb := 0 }

/-- An input whose fractional `envs_per_client` makes the environment count
non-integral, so the truncated transaction counts drop below the values the
costs are computed from. -/
def fractionalEnvsInputs : Inputs :=
  { num_clients := 1
    envs_per_client := 3.5
    avg_state_size_mb := 1
    deployments_per_env_per_year := 0
    pr_runs_per_client_per_year := 1
    num_regions := 1
    storage_accounts_per_region := 1
    backup_mode := BackupMode.none
    blob_vaulted_tiers := some defaultTiers }

/-- An invalid input with `years = 0`, accepted by construction. -/
def zeroYearsInputs : Inputs :=
  { negativeClientsInputs with years := 0 }

/-! Theorems settling the claims about the model above. -/

/-- C4: for every non-negative base client count, growth rate at least -1
(the domain on which the spec defines behaviour) and zero-based year index,
the growth projector returns `ceil(base * (1+rate)^year_index)`, a
non-negative integer; index 0 returns the base unchanged; and
`clients_in_year 100 0.25 k` equals 100, 125, 157 for k = 0, 1, 2. -/
theorem clients_in_year_spec (base : Int) (rate : ℚ) (y : Nat)
    (hbase : 0 ≤ base) (hrate : -1 ≤ rate) :
    clients_in_year base rate y = Int.ceil ((base : ℚ) * (1 + rate) ^ y)
      ∧ 0 ≤ clients_in_year base rate y
      ∧ clients_in_year base rate 0 = base
      ∧ clients_in_year 100 (0.25 : ℚ) 0 = 100
      ∧ clients_in_year 100 (0.25 : ℚ) 1 = 125
      ∧ clients_in_year 100 (0.25 : ℚ) 2 = 157 := by
  refine ⟨rfl, ?_, ?_, ?_, ?_, ?_⟩
  · have h1 : (0 : ℚ) ≤ 1 + rate := by linarith
    have h2 : (0 : ℚ) ≤ (base : ℚ) * (1 + rate) ^ y := by
      have : (0 : ℚ) ≤ (base : ℚ) := by exact_mod_cast hbase
      exact mul_nonneg this (pow_nonneg h1 y)
    exact Int.ceil_nonneg h2
  · simp [clients_in_year]
  · norm_num [clients_in_year, Int.ceil_eq_iff]
  · norm_num [clients_in_year, Int.ceil_eq_iff]
  · norm_num [clients_in_year, Int.ceil_eq_iff]

/-- C4 witness: the theorem instantiated at base 100, rate 0.25, year 2. -/
theorem clients_in_year_spec_witness :
    (0 : Int) ≤ 100 ∧ (-1 : ℚ) ≤ 0.25 ∧ clients_in_year 100 (0.25 : ℚ) 2 = 157 :=
  ⟨by norm_num, by norm_num,
    (clients_in_year_spec 100 (0.25 : ℚ) 2 (by norm_num) (by norm_num)).2.2.2.2.2⟩

/-- C3: the tier lookup maps a per-account size to a fee through the
half-open bands [0,10), [10,100), [100,1024), [1024,∞), returning the base
monthly price times the table entry for the band, a missing key defaulting
to 0 for the three lower bands and 1 for the top band; with the default
table and base 8.0 the fee is 8.0*0.10 at 9.999, 8.0*0.30 at 10.0 and
8.0*1.00 at 1024.0. -/
theorem tier_fee_bands (s base : ℚ) (tiers : List (String × ℚ)) :
    (0 ≤ s → s < 10 →
      blobs_vaulted_pi_monthly_fee s base tiers = base * ((tiers.lookup "<10GB").getD 0))
  ∧ (10 ≤ s → s < 100 →
      blobs_vaulted_pi_monthly_fee s base tiers = base * ((tiers.lookup "10-100GB").getD 0))
  ∧ (100 ≤ s → s < 1024 →
      blobs_vaulted_pi_monthly_fee s base tiers = base * ((tiers.lookup "100GB-1TB").getD 0))
  ∧ (1024 ≤ s →
      blobs_vaulted_pi_monthly_fee s base tiers = base * ((tiers.lookup ">=1TB").getD 1))
  ∧ blobs_vaulted_pi_monthly_fee (9.999 : ℚ) 8 defaultTiers = 8 * (0.10 : ℚ)
  ∧ blobs_vaulted_pi_monthly_fee (10 : ℚ) 8 defaultTiers = 8 * (0.30 : ℚ)
  ∧ blobs_vaulted_pi_monthly_fee (1024 : ℚ) 8 defaultTiers = 8 * (1.00 : ℚ) := by
  refine ⟨?_, ?_, ?_, ?_, ?_, ?_, ?_⟩
  · intro _ h2
    simp [blobs_vaulted_pi_monthly_fee, h2]
  · intro h1 h2
    rw [blobs_vaulted_pi_monthly_fee, if_neg (by linarith), if_pos h2]
  · intro h1 h2
    rw [blobs_vaulted_pi_monthly_fee, if_neg (by linarith), if_neg (by linarith), if_pos h2]
  · intro h1
    rw [blobs_vaulted_pi_monthly_fee, if_neg (by linarith), if_neg (by linarith),
      if_neg (by linarith)]
  · have hl : (defaultTiers.lookup "<10GB").getD 0 = (0.10 : ℚ) := rfl
    rw [blobs_vaulted_pi_monthly_fee, if_pos (by norm_num), hl]
  · have hl : (defaultTiers.lookup "10-100GB").getD 0 = (0.30 : ℚ) := rfl
    rw [blobs_vaulted_pi_monthly_fee, if_neg (by norm_num), if_pos (by norm_num), hl]
  · have hl : (defaultTiers.lookup ">=1TB").getD 1 = (1.00 : ℚ) := rfl
    rw [blobs_vaulted_pi_monthly_fee, if_neg (by norm_num), if_neg (by norm_num),
      if_neg (by norm_num), hl]

/-- C3 witness: the first band's rule instantiated at size 5 with the
default table. -/
theorem tier_fee_bands_witness :
    (0 : ℚ) ≤ 5 ∧ (5 : ℚ) < 10
      ∧ blobs_vaulted_pi_monthly_fee 5 8 defaultTiers
          = 8 * ((defaultTiers.lookup "<10GB").getD 0) :=
  ⟨by norm_num, by norm_num,
    (tier_fee_bands 5 8 defaultTiers).1 (by norm_num) (by norm_num)⟩

/-- C5: every year uses `reads_per_env = 3 * deployments + pr_runs` and
`writes_per_env = deployments`, totals scale by `environments_global`,
storage cost is `environments_global * avg_state_size_gb * price * 12`,
transaction cost is `(reads/10000)*read_price + (writes/10000)*write_price`;
and the runner scenario's year 1 has `environments_global = 350`,
`storage_accounts = 6`, `reads_per_env = 616`, `writes_per_env = 200`. -/
theorem transaction_storage_formulas (i : Inputs) (r : Rates) (y : Nat) :
    reads_per_env i = 3 * i.deployments_per_env_per_year + i.pr_runs_per_client_per_year
  ∧ writes_per_env i = i.deployments_per_env_per_year
  ∧ (yearBreakdown i r y).storage_cost_year
      = (yearBreakdown i r y).environments_global * (i.avg_state_size_mb / 1024)
          * r.storage_gb_month_price * 12
  ∧ (yearBreakdown i r y).transactions.total_txn_cost
      = (((reads_per_env i : ℚ) * (yearBreakdown i r y).environments_global) / 10000)
          * r.read_txn_per_10k_price
        + (((writes_per_env i : ℚ) * (yearBreakdown i r y).environments_global) / 10000)
          * r.write_txn_per_10k_price
  ∧ (yearBreakdown runnerInputs runnerRates 0).environments_global = 350
  ∧ (yearBreakdown runnerInputs runnerRates 0).storage_accounts = 6
  ∧ reads_per_env runnerInputs = 616
  ∧ writes_per_env runnerInputs = 200 := by
  refine ⟨rfl, by simp [writes_per_env], by simp [yearBreakdown], by simp [yearBreakdown],
    ?_, ?_, ?_, ?_⟩
  · norm_num [yearBreakdown, runnerInputs, postInit, clients_in_year]
  · norm_num [yearBreakdown, runnerInputs, postInit]
  · norm_num [reads_per_env, runnerInputs, postInit]
  · norm_num [writes_per_env, runnerInputs, postInit]

/-- C8: in every year of one invocation, `storage_accounts` is the constant
`num_regions * storage_accounts_per_region` (and endpoint-hours are
`total_accounts * hours_per_month * 12`, fixed by it), while
`environments_global` equals `clients_in_year * envs_per_client`, unchanged
under any modification of the region and per-region account counts. -/
theorem fixed_infra_growth_invariant (i : Inputs) (r : Rates) (y : Nat) (n a : Int) :
    (yearBreakdown i r y).storage_accounts = i.num_regions * i.storage_accounts_per_region
  ∧ (yearBreakdown i r y).private_link.endpoint_hours
      = ((i.num_regions * i.storage_accounts_per_region : Int) : ℚ) * i.hours_per_month * 12
  ∧ (yearBreakdown i r y).environments_global
      = (clients_in_year i.num_clients i.growth_rate_clients y : ℚ) * i.envs_per_client
  ∧ (yearBreakdown { i with num_regions := n, storage_accounts_per_region := a } r y).environments_global
      = (yearBreakdown i r y).environments_global := by
  refine ⟨rfl, rfl, rfl, ?_⟩
  simp [yearBreakdown, clients_in_year]

/-- C1: every record of `by_year` has `year_total_cost` equal to storage +
transaction + private-link + log-ingestion cost, plus the three backup cost
terms exactly when the mode is `blobs_vaulted`; and `grand_total` is the sum
of `year_total_cost` over all of `by_year`. -/
theorem year_total_and_grand_total (i : Inputs) (r : Rates) (b : YearBreakdown)
    (hb : b ∈ (estimate_backend_costs i r).by_year) :
    b.year_total_cost
      = b.storage_cost_year + b.transactions.total_txn_cost + b.private_link.total_pl_cost
          + b.logging.ingestion_cost_year
          + (if i.backup_mode = BackupMode.blobs_vaulted then
               b.backup.instance_cost_year + b.backup.vault_storage_cost_year
                 + b.backup.backup_write_ops_cost_year
             else 0)
  ∧ (estimate_backend_costs i r).grand_total
      = ((estimate_backend_costs i r).by_year.map (fun x => x.year_total_cost)).sum := by
  constructor
  · simp only [estimate_backend_costs, List.mem_map, List.mem_range] at hb
    obtain ⟨y, -, rfl⟩ := hb
    simp only [yearBreakdown]
    split_ifs <;> ring
  · rfl

/-- C1 witness: the theorem applied to the first year of the runner
scenario. -/
theorem year_total_and_grand_total_witness :
    yearBreakdown runnerInputs runnerRates 0 ∈ (estimate_backend_costs runnerInputs runnerRates).by_year
  ∧ (estimate_backend_costs runnerInputs runnerRates).grand_total
      = ((estimate_backend_costs runnerInputs runnerRates).by_year.map
          (fun x => x.year_total_cost)).sum := by
  have hmem : yearBreakdown runnerInputs runnerRates 0
      ∈ (estimate_backend_costs runnerInputs runnerRates).by_year := by
    simp only [estimate_backend_costs]
    exact List.mem_map_of_mem _ (List.mem_range.mpr (by norm_num [runnerInputs, postInit]))
  exact ⟨hmem, (year_total_and_grand_total runnerInputs runnerRates _ hmem).2⟩

/-- C2: the backup calculator is a three-way policy on `backup_mode` (stated
for `total_accounts > 0`; the degenerate zero-account case is C6): mode
`none` leaves every backup fee field zero and adds nothing to the year
total; `blobs_operational` records the per-account size but keeps all fees
zero and adds nothing; `blobs_vaulted` charges tiered-fee * accounts * 12,
vault-storage GB * price * accounts * 12, and (ops * accounts * 12 / 10000)
* write price, all added to the year total. -/
theorem backup_mode_policy (i : Inputs) (r : Rates) (y : Nat) (b : YearBreakdown)
    (hacc : 0 < i.num_regions * i.storage_accounts_per_region)
    (hb : b = yearBreakdown i r y) :
    (i.backup_mode = BackupMode.none →
        b.backup.per_account_size_gb = 0
      ∧ b.backup.pi_monthly_fee_per_account = 0
      ∧ b.backup.instance_cost_year = 0
      ∧ b.backup.vault_storage_cost_year = 0
      ∧ b.backup.backup_write_ops_year = 0
      ∧ b.backup.backup_write_ops_cost_year = 0
      ∧ b.year_total_cost
          = b.storage_cost_year + b.transactions.total_txn_cost
              + b.private_link.total_pl_cost + b.logging.ingestion_cost_year)
  ∧ (i.backup_mode = BackupMode.blobs_operational →
        b.backup.per_account_size_gb
          = b.environments_global * (i.avg_state_size_mb / 1024)
              / ((i.num_regions * i.storage_accounts_per_region : Int) : ℚ)
      ∧ b.backup.pi_monthly_fee_per_account = 0
      ∧ b.backup.instance_cost_year = 0
      ∧ b.backup.vault_storage_cost_year = 0
      ∧ b.backup.backup_write_ops_year = 0
      ∧ b.backup.backup_write_ops_cost_year = 0
      ∧ b.year_total_cost
          = b.storage_cost_year + b.transactions.total_txn_cost
              + b.private_link.total_pl_cost + b.logging.ingestion_cost_year)
  ∧ (i.backup_mode = BackupMode.blobs_vaulted →
        b.backup.instance_cost_year
          = blobs_vaulted_pi_monthly_fee
              (b.environments_global * (i.avg_state_size_mb / 1024)
                / ((i.num_regions * i.storage_accounts_per_region : Int) : ℚ))
              i.blob_vaulted_pi_price_per_month (i.blob_vaulted_tiers.getD [])
              * ((i.num_regions * i.storage_accounts_per_region : Int) : ℚ) * 12
      ∧ b.backup.vault_storage_cost_year
          = i.backup_vault_storage_gb_per_account_month
              * i.backup_vault_storage_price_per_gb_month
              * ((i.num_regions * i.storage_accounts_per_region : Int) : ℚ) * 12
      ∧ b.backup.backup_write_ops_cost_year
          = (i.blob_vaulted_write_ops_per_month_per_account
              * ((i.num_regions * i.storage_accounts_per_region : Int) : ℚ) * 12 / 10000)
              * i.blob_vaulted_write_per_10k_price
      ∧ b.year_total_cost
          = b.storage_cost_year + b.transactions.total_txn_cost
              + b.private_link.total_pl_cost + b.logging.ingestion_cost_year
              + b.backup.instance_cost_year + b.backup.vault_storage_cost_year
              + b.backup.backup_write_ops_cost_year) := by
  subst hb
  refine ⟨?_, ?_, ?_⟩
  · intro hm
    simp [yearBreakdown, backupCalc, hm]
  · intro hm
    simp [yearBreakdown, backupCalc, hm, hacc]
  · intro hm
    simp [yearBreakdown, backupCalc, hm, hacc]

/-- C2 witness: the vaulted branch of the policy applied to the runner
scenario's first year. -/
theorem backup_mode_policy_witness :
    (0 : Int) < runnerInputs.num_regions * runnerInputs.storage_accounts_per_region
  ∧ runnerInputs.backup_mode = BackupMode.blobs_vaulted
  ∧ (yearBreakdown runnerInputs runnerRates 0).backup.vault_storage_cost_year
      = runnerInputs.backup_vault_storage_gb_per_account_month
          * runnerInputs.backup_vault_storage_price_per_gb_month
          * ((runnerInputs.num_regions * runnerInputs.storage_accounts_per_region : Int) : ℚ)
          * 12 :=
  ⟨by norm_num [runnerInputs, postInit], rfl,
    ((backup_mode_policy runnerInputs runnerRates 0 _
        (by norm_num [runnerInputs, postInit]) rfl).2.2 rfl).2.1⟩

/-- C6: when `total_accounts = 0` the computation still completes for every
year of the horizon, with the log-ingestion volume and cost and every
numeric backup field (including `per_account_size_gb`) exactly zero,
regardless of the backup mode. -/
theorem zero_accounts_degenerate (i : Inputs) (r : Rates) (y : Nat)
    (hacc : i.num_regions * i.storage_accounts_per_region = 0) :
    (estimate_backend_costs i r).by_year.length = i.years.toNat
  ∧ (yearBreakdown i r y).logging.gb_per_account_per_month = 0
  ∧ (yearBreakdown i r y).logging.ingestion_gb_year = 0
  ∧ (yearBreakdown i r y).logging.ingestion_cost_year = 0
  ∧ (yearBreakdown i r y).backup.per_account_size_gb = 0
  ∧ (yearBreakdown i r y).backup.pi_monthly_fee_per_account = 0
  ∧ (yearBreakdown i r y).backup.instance_cost_year = 0
  ∧ (yearBreakdown i r y).backup.vault_storage_cost_year = 0
  ∧ (yearBreakdown i r y).backup.backup_write_ops_year = 0
  ∧ (yearBreakdown i r y).backup.backup_write_ops_cost_year = 0 := by
  refine ⟨by simp [estimate_backend_costs], ?_, ?_, ?_, ?_, ?_, ?_, ?_, ?_, ?_⟩ <;>
    simp [yearBreakdown, backupCalc, hacc]

/-- C6 witness: the degenerate configuration with zero regions. -/
theorem zero_accounts_degenerate_witness :
    zeroAccInputs.num_regions * zeroAccInputs.storage_accounts_per_region = 0
  ∧ (yearBreakdown zeroAccInputs runnerRates 0).backup.per_account_size_gb = 0 :=
  ⟨rfl, (zero_accounts_degenerate zeroAccInputs runnerRates 0 rfl).2.2.2.2.1⟩

/-- C9: with a positive account count, the per-account division and the
multiplication by the account count cancel: the yearly log-ingestion volume
is `total_txns * log_bytes_per_txn / 1024^3`, and both the volume and the
cost are unchanged under any modification of the region and per-region
account counts that keeps their product positive. -/
theorem log_ingestion_accounts_cancel (i : Inputs) (r : Rates) (y : Nat)
    (hacc : 0 < i.num_regions * i.storage_accounts_per_region) :
    (yearBreakdown i r y).logging.ingestion_gb_year
      = (((reads_per_env i : ℚ) + (writes_per_env i : ℚ))
          * (yearBreakdown i r y).environments_global)
          * i.log_bytes_per_txn / 1024 ^ 3
  ∧ (yearBreakdown i r y).logging.ingestion_cost_year
      = ((((reads_per_env i : ℚ) + (writes_per_env i : ℚ))
          * (yearBreakdown i r y).environments_global)
          * i.log_bytes_per_txn / 1024 ^ 3) * r.log_ingestion_price_per_gb
  ∧ (∀ n a : Int, 0 < n * a →
      (yearBreakdown { i with num_regions := n, storage_accounts_per_region := a } r y).logging.ingestion_gb_year
        = (yearBreakdown i r y).logging.ingestion_gb_year
      ∧ (yearBreakdown { i with num_regions := n, storage_accounts_per_region := a } r y).logging.ingestion_cost_year
        = (yearBreakdown i r y).logging.ingestion_cost_year) := by
  have hn : ((i.num_regions : Int) : ℚ) ≠ 0 := by
    have h0 : i.num_regions ≠ 0 := by
      intro h
      rw [h, zero_mul] at hacc
      exact lt_irrefl 0 hacc
    exact_mod_cast h0
  have ha : ((i.storage_accounts_per_region : Int) : ℚ) ≠ 0 := by
    have h0 : i.storage_accounts_per_region ≠ 0 := by
      intro h
      rw [h, mul_zero] at hacc
      exact lt_irrefl 0 hacc
    exact_mod_cast h0
  have key : (yearBreakdown i r y).logging.ingestion_gb_year
      = (((reads_per_env i : ℚ) + (writes_per_env i : ℚ))
          * (yearBreakdown i r y).environments_global)
          * i.log_bytes_per_txn / 1024 ^ 3 := by
    simp only [yearBreakdown, if_pos hacc]
    field_simp
    ring
  have keyc : (yearBreakdown i r y).logging.ingestion_cost_year
      = ((((reads_per_env i : ℚ) + (writes_per_env i : ℚ))
          * (yearBreakdown i r y).environments_global)
          * i.log_bytes_per_txn / 1024 ^ 3) * r.log_ingestion_price_per_gb := by
    have hc : (yearBreakdown i r y).logging.ingestion_cost_year
        = (yearBreakdown i r y).logging.ingestion_gb_year * r.log_ingestion_price_per_gb := rfl
    rw [hc, key]
  refine ⟨key, keyc, ?_⟩
  intro n a hna
  have hn2 : ((n : Int) : ℚ) ≠ 0 := by
    have h0 : n ≠ 0 := by
      intro h
      rw [h, zero_mul] at hna
      exact lt_irrefl 0 hna
    exact_mod_cast h0
  have ha2 : ((a : Int) : ℚ) ≠ 0 := by
    have h0 : a ≠ 0 := by
      intro h
      rw [h, mul_zero] at hna
      exact lt_irrefl 0 hna
    exact_mod_cast h0
  have key2 : (yearBreakdown { i with num_regions := n, storage_accounts_per_region := a } r y).logging.ingestion_gb_year
      = (((reads_per_env i : ℚ) + (writes_per_env i : ℚ))
          * (yearBreakdown i r y).environments_global)
          * i.log_bytes_per_txn / 1024 ^ 3 := by
    simp only [yearBreakdown, if_pos hna]
    field_simp
    simp only [reads_per_env, writes_per_env]
    push_cast
    ring
  have key2c : (yearBreakdown { i with num_regions := n, storage_accounts_per_region := a } r y).logging.ingestion_cost_year
      = (yearBreakdown { i with num_regions := n, storage_accounts_per_region := a } r y).logging.ingestion_gb_year
          * r.log_ingestion_price_per_gb := rfl
  refine ⟨by rw [key2, key], ?_⟩
  rw [key2c, key2, keyc]

/-- C9 witness: the cancellation law applied to the runner scenario's first
year. -/
theorem log_ingestion_accounts_cancel_witness :
    (0 : Int) < runnerInputs.num_regions * runnerInputs.storage_accounts_per_region
  ∧ (yearBreakdown runnerInputs runnerRates 0).logging.ingestion_gb_year
      = (((reads_per_env runnerInputs : ℚ) + (writes_per_env runnerInputs : ℚ))
          * (yearBreakdown runnerInputs runnerRates 0).environments_global)
          * runnerInputs.log_bytes_per_txn / 1024 ^ 3 :=
  ⟨by norm_num [runnerInputs, postInit],
    (log_ingestion_accounts_cancel runnerInputs runnerRates 0
      (by norm_num [runnerInputs, postInit])).1⟩

/-- C10: in every year the reported transaction counts are `int()`
truncations of the products `reads_per_env * total_envs`,
`writes_per_env * total_envs` and their sum, while the read and write costs
are computed from the untruncated values; with a fractional
`envs_per_client` the reported read count is strictly smaller than the
value the cost was computed from. -/
theorem reported_txn_counts_truncated (i : Inputs) (r : Rates) (y : Nat) :
    (yearBreakdown i r y).transactions.reads
      = pyInt ((reads_per_env i : ℚ) * (yearBreakdown i r y).environments_global)
  ∧ (yearBreakdown i r y).transactions.writes
      = pyInt ((writes_per_env i : ℚ) * (yearBreakdown i r y).environments_global)
  ∧ (yearBreakdown i r y).transactions.total
      = pyInt ((reads_per_env i : ℚ) * (yearBreakdown i r y).environments_global
          + (writes_per_env i : ℚ) * (yearBreakdown i r y).environments_global)
  ∧ (yearBreakdown i r y).transactions.read_cost
      = (((reads_per_env i : ℚ) * (yearBreakdown i r y).environments_global) / 10000)
          * r.read_txn_per_10k_price
  ∧ (yearBreakdown i r y).transactions.write_cost
      = (((writes_per_env i : ℚ) * (yearBreakdown i r y).environments_global) / 10000)
          * r.write_txn_per_10k_price
  ∧ (((yearBreakdown fractionalEnvsInputs runnerRates 0).transactions.reads : ℚ)
      < (reads_per_env fractionalEnvsInputs : ℚ)
          * (yearBreakdown fractionalEnvsInputs runnerRates 0).environments_global) := by
  refine ⟨rfl, rfl, rfl, rfl, rfl, ?_⟩
  norm_num [yearBreakdown, fractionalEnvsInputs, clients_in_year, reads_per_env, pyInt]

/-- C7 counterexample: the invalid input `num_clients = -100` is not
rejected — construction succeeds and the estimate silently produces a
negative grand total, contradicting fail-fast rejection. -/
theorem invalid_inputs_not_rejected_counterexample :
    (estimate_backend_costs (postInit negativeClientsInputs) storageOnlyRates).grand_total < 0 := by
  have hc : Int.ceil ((-100 : ℚ)) = -100 := by norm_num [Int.ceil_eq_iff]
  norm_num [estimate_backend_costs, yearBreakdown, backupCalc, negativeClientsInputs,
    storageOnlyRates, postInit, clients_in_year, reads_per_env, writes_per_env,
    List.range_succ, hc]

/-- C7 amended: `Inputs` construction performs no validation — post-init
only installs the default tier table, preserving every other field and
accepting arbitrary values (negative scale, zero or negative years, any
growth rate); a non-positive horizon silently yields an empty result with
grand total 0 instead of an error. -/
theorem no_validation_fail_fast (i : Inputs) (r : Rates) :
    (postInit i).num_clients = i.num_clients
  ∧ (postInit i).years = i.years
  ∧ (postInit i).growth_rate_clients = i.growth_rate_clients
  ∧ (postInit i).envs_per_client = i.envs_per_client
  ∧ (i.years ≤ 0 →
      (estimate_backend_costs i r).by_year = []
    ∧ (estimate_backend_costs i r).grand_total = 0) := by
  refine ⟨?_, ?_, ?_, ?_, ?_⟩
  · unfold postInit
    split <;> rfl
  · unfold postInit
    split <;> rfl
  · unfold postInit
    split <;> rfl
  · unfold postInit
    split <;> rfl
  · intro hy
    have h0 : i.years.toNat = 0 := Int.toNat_of_nonpos hy
    constructor <;> simp [estimate_backend_costs, h0]

/-- C7 amended witness: the zero-years input flows through construction and
produces the empty result. -/
theorem no_validation_fail_fast_witness :
    zeroYearsInputs.years ≤ 0
  ∧ (estimate_backend_costs zeroYearsInputs storageOnlyRates).by_year = []
  ∧ (estimate_backend_costs zeroYearsInputs storageOnlyRates).grand_total = 0 :=
  ⟨by norm_num [zeroYearsInputs, negativeClientsInputs],
    (no_validation_fail_fast zeroYearsInputs storageOnlyRates).2.2.2.2
      (by norm_num [zeroYearsInputs, negativeClientsInputs])⟩

end AzurermBackendCosts
